import Mathlib

/-!
Shallow embedding of the PIVX address codec
(`ts_src/pivx/address.ts`, `ts_src/pivx/types.ts`, `ts_src/pivx/network.ts`
of PIVX-Project/bitcoinjs-lib), together with theorems settling the
specification claims about prefix matching, codec round-trips, error
conditions and script projection.

Bytes are modelled as `Nat`; `Uint8Array` values become `List Nat`.
Thrown JavaScript errors become `Except PivxError`.  The external
Base58Check primitive (`bs58check`) is a parameter (`Bs58`), and the
external script compiler (`script.js`, outside the provided sources) is
modelled from the spec.
-/

/-- A version prefix: either a single byte (`number`) or a byte sequence
(`number[]`), mirroring `type VersionPrefix = number | number[]` of
`types.ts`. -/
inductive VersionPrefix where
  | num (v : Nat)
  | arr (vs : List Nat)
  deriving DecidableEq

/-- The four extended PIVX address prefixes, mirroring `interface
PivxPrefixes` of `types.ts`. -/
structure PivxPrefixes where
  pubKeyHash : VersionPrefix
  scriptHash : VersionPrefix
  staking : VersionPrefix
  exchange : VersionPrefix
  deriving DecidableEq

/-- The base network fields, mirroring the `Network` interface
(`networks.ts`); the nested `bip32` record is flattened into two fields. -/
structure Network where
  messagePrefix : String
  bech32 : String
  bip32Public : Nat
  bip32Private : Nat
  pubKeyHash : Nat
  scriptHash : Nat
  wif : Nat
  deriving DecidableEq

/-- A PIVX network: the base fields plus the extended prefixes, mirroring
`interface PivxNetwork extends Network` of `types.ts`. -/
structure PivxNetwork extends Network where
  pivxPrefixes : PivxPrefixes
  deriving DecidableEq

/-- The four PIVX address classes, mirroring
`type PivxAddressType = 'p2pkh' | 'p2sh' | 'staking' | 'exchange'`. -/
inductive PivxAddressType where
  | p2pkh
  | p2sh
  | staking
  | exchange
  deriving DecidableEq

/-- Result of parsing a PIVX Base58 address, mirroring
`interface ParsedPivxAddress` of `types.ts`. -/
structure ParsedPivxAddress where
  type : PivxAddressType
  version : VersionPrefix
  hash : List Nat
  deriving DecidableEq

/-- The distinguishable failure conditions thrown by the codec.  The
constructors model, in order: the error propagated from `bs58check.decode`;
`throw new Error('Address payload too short')`;
`throw new Error('Unknown PIVX address prefix: 0x..')` carrying the leading
byte; `throw new Error('Invalid hash length: expected 20 bytes, got N')`
carrying expected and actual length (decode path);
`throw new Error('Hash must be 20 bytes, got N')` carrying required and
actual length (encode path); and
`throw new Error('Unknown PIVX address type: T')` from the defensive
`default` branch of `pivxAddressToOutputScript`. -/
inductive PivxError where
  | base58Error (msg : String)
  | payloadTooShort
  | unknownVersionByte (b : Nat)
  | invalidHashLength (expected actual : Nat)
  | encodeHashLength (required actual : Nat)
  | unknownAddressType (t : PivxAddressType)
  deriving DecidableEq

/-- The external Base58Check primitive (`bs58check`), kept abstract:
`encode` never fails on byte input, `decode` fails with a
checksum/alphabet message. -/
structure Bs58 where
  encode : List Nat → String
  decode : String → Except String (List Nat)

/-- `versionEquals` of `address.ts`: structural equality of version
prefixes.  Two numbers compare numerically; two arrays compare by length
and element-wise equality; a number and an array are never equal. -/
def versionEquals (a b : VersionPrefix) : Bool :=
  match a, b with
  | .num x, .num y => x == y
  | .arr x, .arr y => x.length == y.length && (x.zip y).all fun p => p.1 == p.2
  | _, _ => false

/-- The single-byte comparison of `extractVersion`:
`typeof p === 'number' && singleByteVersion === p`. -/
def singleByteMatches (p : VersionPrefix) (b : Nat) : Bool :=
  match p with
  | .num v => b == v
  | .arr _ => false

/-- `extractVersion` of `address.ts`: match the decoded payload against the
known prefixes.  The 3-byte exchange prefix is checked first (when the
payload is long enough); then, requiring length ≥ 21, byte 0 is compared
against the single-byte prefixes in the order pubKeyHash, scriptHash,
staking; otherwise the unknown-prefix error carries byte 0. -/
def extractVersion (payload : List Nat) (network : PivxNetwork) :
    Except PivxError ParsedPivxAddress :=
  let prefixes := network.pivxPrefixes
  let multi : Option ParsedPivxAddress :=
    match prefixes.exchange with
    | .arr ex =>
      if payload.length ≥ ex.length + 20 then
        let prefixBytes := payload.take ex.length
        if versionEquals (.arr prefixBytes) (.arr ex) then
          some ⟨.exchange, .arr ex, payload.drop ex.length⟩
        else
          none
      else
        none
    | .num _ => none
  match multi with
  | some r => .ok r
  | none =>
    if payload.length < 21 then
      .error .payloadTooShort
    else
      let singleByteVersion := payload.headD 0
      let hash := payload.drop 1
      if singleByteMatches prefixes.pubKeyHash singleByteVersion then
        .ok ⟨.p2pkh, .num singleByteVersion, hash⟩
      else if singleByteMatches prefixes.scriptHash singleByteVersion then
        .ok ⟨.p2sh, .num singleByteVersion, hash⟩
      else if singleByteMatches prefixes.staking singleByteVersion then
        .ok ⟨.staking, .num singleByteVersion, hash⟩
      else
        .error (.unknownVersionByte singleByteVersion)

/-- `parsePivxBase58Address` of `address.ts`: Base58Check-decode, extract
the version, then require the extracted hash to be exactly 20 bytes. -/
def parsePivxBase58Address (bs : Bs58) (address : String)
    (network : PivxNetwork) : Except PivxError ParsedPivxAddress :=
  match bs.decode address with
  | .error msg => .error (.base58Error msg)
  | .ok payload =>
    match extractVersion payload network with
    | .error e => .error e
    | .ok parsed =>
      if parsed.hash.length ≠ 20 then
        .error (.invalidHashLength 20 parsed.hash.length)
      else
        .ok ⟨parsed.type, parsed.version, parsed.hash⟩

/-- `encodePivxAddress` of `address.ts`: reject a hash that is not 20
bytes, then assemble prefix bytes followed by hash bytes and Base58Check
encode the payload. -/
def encodePivxAddress (bs : Bs58) (hash : List Nat)
    (version : VersionPrefix) : Except PivxError String :=
  if hash.length ≠ 20 then
    .error (.encodeHashLength 20 hash.length)
  else
    let payload : List Nat :=
      match version with
      | .num v => v :: hash
      | .arr vs => vs ++ hash
    .ok (bs.encode payload)

/-- `encodePivxExchangeAddress` of `address.ts`. -/
def encodePivxExchangeAddress (bs : Bs58) (hash : List Nat)
    (network : PivxNetwork) : Except PivxError String :=
  encodePivxAddress bs hash network.pivxPrefixes.exchange

/-- `encodePivxStakingAddress` of `address.ts`. -/
def encodePivxStakingAddress (bs : Bs58) (hash : List Nat)
    (network : PivxNetwork) : Except PivxError String :=
  encodePivxAddress bs hash network.pivxPrefixes.staking

/-- The PIVX mainnet configuration `pivx` of `network.ts`:
pubKeyHash 0x1e, scriptHash 0x0d, staking 0x3f,
exchange [0x01, 0xb9, 0xa2]. -/
def pivx : PivxNetwork :=
  ⟨⟨"\x18Darknet Signed Message:\n", "", 0x022d2533, 0x0221312b,
    0x1e, 0x0d, 0xd4⟩,
   ⟨.num 0x1e, .num 0x0d, .num 0x3f, .arr [0x01, 0xb9, 0xa2]⟩⟩

/-- The registered version bytes of a given address class on the PIVX
mainnet registry. -/
def prefixOfClass (c : PivxAddressType) : VersionPrefix :=
  match c with
  | .p2pkh => pivx.pivxPrefixes.pubKeyHash
  | .p2sh => pivx.pivxPrefixes.scriptHash
  | .staking => pivx.pivxPrefixes.staking
  | .exchange => pivx.pivxPrefixes.exchange

/-- The byte sequence of a version prefix, as assembled by
`encodePivxAddress`. -/
def versionBytes (v : VersionPrefix) : List Nat :=
  match v with
  | .num b => [b]
  | .arr bs => bs

/-- A chunk fed to the script compiler: an opcode or a data push. -/
inductive ScriptChunk where
  | op (code : Nat)
  | data (bytes : List Nat)

/-- Modelled from the spec: the external script compiler of `script.js`
(outside the provided sources), `compile(chunks) -> bytes`, deterministic.
An opcode chunk contributes its single byte; a data chunk of 1..75 bytes
contributes its length byte followed by the data (the minimal push, which
gives the spec's stated script sizes of 25, 26 and 23 bytes for a 20-byte
hash). -/
def compile (chunks : List ScriptChunk) : List Nat :=
  match chunks with
  | [] => []
  | .op code :: rest => code :: compile rest
  | .data bytes :: rest => bytes.length :: (bytes ++ compile rest)

/-- Modelled from the spec: opcode `OP_DUP` from the external script
module, standard value 0x76. -/
def OP_DUP : Nat := 0x76

/-- Modelled from the spec: opcode `OP_HASH160`, standard value 0xa9. -/
def OP_HASH160 : Nat := 0xa9

/-- Modelled from the spec: opcode `OP_EQUALVERIFY`, standard value 0x88. -/
def OP_EQUALVERIFY : Nat := 0x88

/-- Modelled from the spec: opcode `OP_CHECKSIG`, standard value 0xac. -/
def OP_CHECKSIG : Nat := 0xac

/-- Modelled from the spec: opcode `OP_EQUAL`, standard value 0x87. -/
def OP_EQUAL : Nat := 0x87

/-- `OP_EXCHANGEADDR`, the PIVX marker opcode 0xe0 written literally in
`pivxAddressToOutputScript`. -/
def OP_EXCHANGEADDR : Nat := 0xe0

/-- The `switch (parsed.type)` body of `pivxAddressToOutputScript` of
`address.ts`: p2pkh and staking map to the standard P2PKH script, exchange
prepends `OP_EXCHANGEADDR` to that script, p2sh maps to the standard P2SH
script, and the defensive `default` branch fails with the
unknown-address-type error. -/
def pivxOutputScript (parsed : ParsedPivxAddress) :
    Except PivxError (List Nat) :=
  if parsed.type = .p2pkh ∨ parsed.type = .staking then
    .ok (compile [.op OP_DUP, .op OP_HASH160, .data parsed.hash,
      .op OP_EQUALVERIFY, .op OP_CHECKSIG])
  else if parsed.type = .exchange then
    .ok (compile [.op OP_EXCHANGEADDR, .op OP_DUP, .op OP_HASH160,
      .data parsed.hash, .op OP_EQUALVERIFY, .op OP_CHECKSIG])
  else if parsed.type = .p2sh then
    .ok (compile [.op OP_HASH160, .data parsed.hash, .op OP_EQUAL])
  else
    .error (.unknownAddressType parsed.type)

/-- `pivxAddressToOutputScript` of `address.ts`: parse the address, then
project the parsed class and hash to the output script. -/
def pivxAddressToOutputScript (bs : Bs58) (address : String)
    (network : PivxNetwork) : Except PivxError (List Nat) :=
  match parsePivxBase58Address bs address network with
  | .error e => .error e
  | .ok parsed => pivxOutputScript parsed

/-- `toOutputScript` of `address.ts`, an alias of
`pivxAddressToOutputScript`. -/
def toOutputScript (bs : Bs58) (address : String)
    (network : PivxNetwork) : Except PivxError (List Nat) :=
  pivxAddressToOutputScript bs address network

/-- Structural array-prefix equality agrees with list equality. -/
theorem versionEquals_arr_iff (x y : List Nat) :
    versionEquals (.arr x) (.arr y) = true ↔ x = y := by
  induction x generalizing y with
  | nil => cases y <;> simp [versionEquals]
  | cons a x ih =>
    cases y with
    | nil => simp [versionEquals]
    | cons b y =>
      simp only [versionEquals, List.zip_cons_cons, List.all_cons,
        List.length_cons, Nat.add_right_cancel_iff, beq_iff_eq,
        Bool.and_eq_true, List.cons.injEq] at ih ⊢
      have ihy := ih y
      tauto

/-- C2: a decoded payload whose first 3 bytes equal the registered
exchange prefix [0x01, 0xb9, 0xa2] and whose total length is at least 23
is classified as exchange with hash = payload[3:], for every choice of the
single-byte prefixes — so single-byte matching is never consulted. -/
theorem exchange_classified_first (payload : List Nat)
    (pk sh st : VersionPrefix)
    (h3 : payload.take 3 = [0x01, 0xb9, 0xa2])
    (hlen : 23 ≤ payload.length) :
    extractVersion payload
      ⟨pivx.toNetwork, ⟨pk, sh, st, .arr [0x01, 0xb9, 0xa2]⟩⟩ =
      .ok ⟨.exchange, .arr [0x01, 0xb9, 0xa2], payload.drop 3⟩ := by
  have hv : versionEquals (.arr (payload.take 3))
      (.arr [0x01, 0xb9, 0xa2]) = true :=
    (versionEquals_arr_iff _ _).mpr h3
  simp [extractVersion, hlen, hv]

/-- Witness for C2 at the concrete payload [0x01, 0xb9, 0xa2] ++ 20 zero
bytes with the mainnet single-byte prefixes. -/
theorem exchange_classified_first_witness :
    extractVersion ([0x01, 0xb9, 0xa2] ++ List.replicate 20 0)
      ⟨pivx.toNetwork, ⟨.num 0x1e, .num 0x0d, .num 0x3f,
        .arr [0x01, 0xb9, 0xa2]⟩⟩ =
      .ok ⟨.exchange, .arr [0x01, 0xb9, 0xa2],
        ([0x01, 0xb9, 0xa2] ++ List.replicate 20 0).drop 3⟩ :=
  exchange_classified_first ([0x01, 0xb9, 0xa2] ++ List.replicate 20 0)
    (.num 0x1e) (.num 0x0d) (.num 0x3f) (by decide) (by decide)

/-- C3: a payload of length at least 23 whose first 3 bytes do not equal
the exchange prefix falls through the multi-byte stage to single-byte
matching; with leading byte 0x1e it is classified pubKeyHash with
hash = payload[1:]. -/
theorem multibyte_mismatch_falls_through (payload : List Nat)
    (hlen : 23 ≤ payload.length)
    (hne : payload.take 3 ≠ [0x01, 0xb9, 0xa2])
    (h0 : payload.headD 0 = 0x1e) :
    extractVersion payload pivx = .ok ⟨.p2pkh, .num 0x1e, payload.drop 1⟩ := by
  have hv : versionEquals (.arr (payload.take 3))
      (.arr [0x01, 0xb9, 0xa2]) = false := by
    rw [← Bool.not_eq_true, versionEquals_arr_iff]
    exact hne
  have h21 : ¬ payload.length < 21 := by omega
  have h0g : payload.head?.getD 0 = 0x1e := by simpa using h0
  simp [extractVersion, pivx, hlen, hv, h21, h0g, singleByteMatches]

/-- Witness for C3 at the concrete payload 0x1e followed by 22 zero
bytes. -/
theorem multibyte_mismatch_falls_through_witness :
    extractVersion (0x1e :: List.replicate 22 0) pivx =
      .ok ⟨.p2pkh, .num 0x1e, (0x1e :: List.replicate 22 0).drop 1⟩ :=
  multibyte_mismatch_falls_through (0x1e :: List.replicate 22 0)
    (by decide) (by decide) (by decide)

/-- C4: when no multi-byte prefix matched (under the mainnet registry, any
payload shorter than 23 bytes cannot match), a total length strictly below
21 fails with the payload-too-short condition, whatever the payload's
bytes are — in particular byte 0 is never consulted. -/
theorem short_payload_rejected (payload : List Nat)
    (hlen : payload.length < 21) :
    extractVersion payload pivx = .error .payloadTooShort := by
  have h23 : ¬ payload.length ≥ 3 + 20 := by omega
  simp [extractVersion, pivx, h23, hlen]

/-- Witness for C4 at a concrete payload of length 15. -/
theorem short_payload_rejected_witness :
    extractVersion (List.replicate 15 0) pivx = .error .payloadTooShort :=
  short_payload_rejected (List.replicate 15 0) (by decide)

/-- C5: a payload of length at least 21 whose leading bytes match no
registered prefix of any length fails with the unknown-prefix condition
carrying the unmatched leading byte. -/
theorem unknown_leading_byte_rejected (payload : List Nat)
    (hlen : 21 ≤ payload.length)
    (hne3 : payload.take 3 ≠ [0x01, 0xb9, 0xa2])
    (h30 : payload.headD 0 ≠ 0x1e)
    (h13 : payload.headD 0 ≠ 0x0d)
    (h63 : payload.headD 0 ≠ 0x3f) :
    extractVersion payload pivx =
      .error (.unknownVersionByte (payload.headD 0)) := by
  have hv : versionEquals (.arr (payload.take 3))
      (.arr [0x01, 0xb9, 0xa2]) = false := by
    rw [← Bool.not_eq_true, versionEquals_arr_iff]
    exact hne3
  have h21 : ¬ payload.length < 21 := by omega
  have g30 : ¬ payload.head?.getD 0 = 0x1e := by simpa using h30
  have g13 : ¬ payload.head?.getD 0 = 0x0d := by simpa using h13
  have g63 : ¬ payload.head?.getD 0 = 0x3f := by simpa using h63
  simp [extractVersion, pivx, hv, h21, g30, g13, g63, singleByteMatches]

/-- Witness for C5 at a concrete length-21 payload with leading byte
0xff. -/
theorem unknown_leading_byte_rejected_witness :
    extractVersion (0xff :: List.replicate 20 0) pivx =
      .error (.unknownVersionByte ((0xff :: List.replicate 20 0).headD 0)) :=
  unknown_leading_byte_rejected (0xff :: List.replicate 20 0)
    (by decide) (by decide) (by decide) (by decide) (by decide)

/-- C10: a payload whose first 3 bytes equal the exchange prefix but whose
total length is 21 or 22 (too short for the multi-byte match) fails with
the unknown-prefix condition carrying the leading byte 0x01 — it is
neither classified exchange, nor rejected as too short, nor rejected for
hash length. -/
theorem exchange_prefixed_short_payload_unknown (payload : List Nat)
    (h3 : payload.take 3 = [0x01, 0xb9, 0xa2])
    (hlen : payload.length = 21 ∨ payload.length = 22) :
    extractVersion payload pivx = .error (.unknownVersionByte 0x01) := by
  have h23 : ¬ payload.length ≥ 3 + 20 := by omega
  have h21 : ¬ payload.length < 21 := by omega
  have h0 : payload.head?.getD 0 = 0x01 := by
    cases payload with
    | nil => simp at h3
    | cons a rest =>
      simp only [List.take_succ_cons, List.cons.injEq] at h3
      simp [h3.1]
  simp [extractVersion, pivx, h23, h21, h0, singleByteMatches]

/-- Witness for C10 at the concrete length-21 payload
[0x01, 0xb9, 0xa2] ++ 18 zero bytes. -/
theorem exchange_prefixed_short_payload_unknown_witness :
    extractVersion ([0x01, 0xb9, 0xa2] ++ List.replicate 18 0) pivx =
      .error (.unknownVersionByte 0x01) :=
  exchange_prefixed_short_payload_unknown
    ([0x01, 0xb9, 0xa2] ++ List.replicate 18 0) (by decide) (by decide)

/-- C6: encoding a hash whose length is not 20 bytes fails with the
invalid-hash-length condition carrying the required length 20 and the
actual length, uniformly in the Base58Check encoder — so the external
encoder is never consulted and no payload is assembled. -/
theorem encode_rejects_bad_hash_length (bs : Bs58) (hash : List Nat)
    (version : VersionPrefix) (h : hash.length ≠ 20) :
    encodePivxAddress bs hash version =
      .error (.encodeHashLength 20 hash.length) := by
  simp [encodePivxAddress, h]

/-- Witness for C6 at a concrete 10-byte hash and an encoder that maps
every payload to the empty string. -/
theorem encode_rejects_bad_hash_length_witness :
    encodePivxAddress ⟨fun _ => "", fun _ => .error "checksum"⟩
      (List.replicate 10 0) (.num 0x1e) =
      .error (.encodeHashLength 20 (List.replicate 10 0).length) :=
  encode_rejects_bad_hash_length ⟨fun _ => "", fun _ => .error "checksum"⟩
    (List.replicate 10 0) (.num 0x1e) (by decide)

/-- C7: whenever the parser returns a result, its hash is exactly 20 bytes
and its class is one of the four known classes; and when the extracted
hash has any other length the parse fails with the dedicated
invalid-hash-length condition carrying the observed length. -/
theorem parse_hash_length_invariant (bs : Bs58) (address : String)
    (network : PivxNetwork) :
    (∀ r, parsePivxBase58Address bs address network = .ok r →
      r.hash.length = 20 ∧
      (r.type = .p2pkh ∨ r.type = .p2sh ∨ r.type = .staking ∨
        r.type = .exchange)) ∧
    (∀ payload parsed, bs.decode address = .ok payload →
      extractVersion payload network = .ok parsed →
      parsed.hash.length ≠ 20 →
      parsePivxBase58Address bs address network =
        .error (.invalidHashLength 20 parsed.hash.length)) := by
  constructor
  · intro r hr
    simp only [parsePivxBase58Address] at hr
    cases hd : bs.decode address with
    | error m => simp [hd] at hr
    | ok payload =>
      simp only [hd] at hr
      cases he : extractVersion payload network with
      | error e => simp [he] at hr
      | ok parsed =>
        simp only [he] at hr
        by_cases hl : parsed.hash.length = 20
        · rw [if_neg (fun hcon => hcon hl)] at hr
          injection hr with h
          subst h
          refine ⟨hl, ?_⟩
          cases parsed.type <;> simp
        · rw [if_pos hl] at hr
          exact absurd hr (by simp)
  · intro payload parsed hd he hl
    simp only [parsePivxBase58Address, hd, he]
    rw [if_pos hl]

/-- Witness for C7: both conjuncts applied at concrete decoders — one
yielding a valid p2pkh payload, one yielding an exchange-prefixed payload
with a 21-byte hash. -/
theorem parse_hash_length_invariant_witness :
    ((⟨.p2pkh, .num 0x1e, List.replicate 20 7⟩ :
        ParsedPivxAddress).hash.length = 20 ∧
      ((⟨.p2pkh, .num 0x1e, List.replicate 20 7⟩ :
        ParsedPivxAddress).type = .p2pkh ∨
       (⟨.p2pkh, .num 0x1e, List.replicate 20 7⟩ :
        ParsedPivxAddress).type = .p2sh ∨
       (⟨.p2pkh, .num 0x1e, List.replicate 20 7⟩ :
        ParsedPivxAddress).type = .staking ∨
       (⟨.p2pkh, .num 0x1e, List.replicate 20 7⟩ :
        ParsedPivxAddress).type = .exchange)) ∧
    parsePivxBase58Address
      ⟨fun _ => "", fun _ => .ok ([0x01, 0xb9, 0xa2] ++ List.replicate 21 0)⟩
      "a" pivx =
      .error (.invalidHashLength 20
        (⟨.exchange, .arr [0x01, 0xb9, 0xa2],
          List.replicate 21 0⟩ : ParsedPivxAddress).hash.length) := by
  constructor
  · exact (parse_hash_length_invariant
      ⟨fun _ => "", fun _ => .ok (0x1e :: List.replicate 20 7)⟩ "a" pivx).1
      ⟨.p2pkh, .num 0x1e, List.replicate 20 7⟩ (by rfl)
  · exact (parse_hash_length_invariant
      ⟨fun _ => "", fun _ => .ok ([0x01, 0xb9, 0xa2] ++ List.replicate 21 0)⟩
      "a" pivx).2
      ([0x01, 0xb9, 0xa2] ++ List.replicate 21 0)
      ⟨.exchange, .arr [0x01, 0xb9, 0xa2], List.replicate 21 0⟩
      (by rfl) (by rfl) (by decide)

/-- C8: the script projection of a staking-class address equals that of a
pubKeyHash-class address with the same hash (DUP HASH160 hash EQUALVERIFY
CHECKSIG, 25 bytes); the exchange-class projection is the marker opcode
0xe0 followed by that same script (26 bytes); and the scriptHash-class
projection is HASH160 hash EQUAL (23 bytes). -/
theorem output_script_shapes (H : List Nat) (hH : H.length = 20) :
    pivxOutputScript ⟨.staking, .num 0x3f, H⟩ =
      .ok ([OP_DUP, OP_HASH160, 20] ++ H ++ [OP_EQUALVERIFY, OP_CHECKSIG]) ∧
    pivxOutputScript ⟨.p2pkh, .num 0x1e, H⟩ =
      .ok ([OP_DUP, OP_HASH160, 20] ++ H ++ [OP_EQUALVERIFY, OP_CHECKSIG]) ∧
    pivxOutputScript ⟨.exchange, .arr [0x01, 0xb9, 0xa2], H⟩ =
      .ok (OP_EXCHANGEADDR ::
        ([OP_DUP, OP_HASH160, 20] ++ H ++ [OP_EQUALVERIFY, OP_CHECKSIG])) ∧
    pivxOutputScript ⟨.p2sh, .num 0x0d, H⟩ =
      .ok ([OP_HASH160, 20] ++ H ++ [OP_EQUAL]) ∧
    ([OP_DUP, OP_HASH160, 20] ++ H ++ [OP_EQUALVERIFY, OP_CHECKSIG]).length
      = 25 ∧
    (OP_EXCHANGEADDR ::
      ([OP_DUP, OP_HASH160, 20] ++ H ++ [OP_EQUALVERIFY, OP_CHECKSIG])).length
      = 26 ∧
    ([OP_HASH160, 20] ++ H ++ [OP_EQUAL]).length = 23 := by
  refine ⟨?_, ?_, ?_, ?_, ?_, ?_, ?_⟩ <;>
    simp [pivxOutputScript, compile, hH]

/-- Witness for C8 at the concrete hash of 20 bytes 0x12. -/
theorem output_script_shapes_witness :
    pivxOutputScript ⟨.staking, .num 0x3f, List.replicate 20 0x12⟩ =
      .ok ([OP_DUP, OP_HASH160, 20] ++ List.replicate 20 0x12 ++
        [OP_EQUALVERIFY, OP_CHECKSIG]) ∧
    pivxOutputScript ⟨.exchange, .arr [0x01, 0xb9, 0xa2],
        List.replicate 20 0x12⟩ =
      .ok (OP_EXCHANGEADDR :: ([OP_DUP, OP_HASH160, 20] ++
        List.replicate 20 0x12 ++ [OP_EQUALVERIFY, OP_CHECKSIG])) := by
  have h := output_script_shapes (List.replicate 20 0x12) (by decide)
  exact ⟨h.1, h.2.2.1⟩

/-- The version-matching stage only fails with the too-short or
unknown-prefix conditions. -/
theorem extractVersion_error_cases (payload : List Nat)
    (network : PivxNetwork) (e : PivxError)
    (h : extractVersion payload network = .error e) :
    e = .payloadTooShort ∨ ∃ b, e = .unknownVersionByte b := by
  simp only [extractVersion] at h
  split at h
  · exact absurd h (by simp)
  · split at h
    · injection h with h
      exact Or.inl h.symm
    · split at h
      · exact absurd h (by simp)
      · split at h
        · exact absurd h (by simp)
        · split at h
          · exact absurd h (by simp)
          · injection h with h
            exact Or.inr ⟨_, h.symm⟩

/-- The parser only fails with the propagated Base58Check condition, the
too-short condition, the unknown-prefix condition, or the decode-side
invalid-hash-length condition. -/
theorem parse_error_cases (bs : Bs58) (address : String)
    (network : PivxNetwork) (e : PivxError)
    (h : parsePivxBase58Address bs address network = .error e) :
    (∃ m, e = .base58Error m) ∨ e = .payloadTooShort ∨
    (∃ b, e = .unknownVersionByte b) ∨
    (∃ a, e = .invalidHashLength 20 a) := by
  simp only [parsePivxBase58Address] at h
  cases hd : bs.decode address with
  | error m =>
    simp only [hd] at h
    injection h with h
    exact Or.inl ⟨m, h.symm⟩
  | ok payload =>
    simp only [hd] at h
    cases he : extractVersion payload network with
    | error e2 =>
      simp only [he] at h
      injection h with h
      subst h
      rcases extractVersion_error_cases payload network e2 he with h2 | ⟨b, h2⟩
      · exact Or.inr (Or.inl h2)
      · exact Or.inr (Or.inr (Or.inl ⟨b, h2⟩))
    | ok parsed =>
      simp only [he] at h
      split at h
      · injection h with h
        exact Or.inr (Or.inr (Or.inr ⟨parsed.hash.length, h.symm⟩))
      · exact absurd h (by simp)

/-- The script projection never fails on a parsed address: every class is
covered by one of the four branches. -/
theorem pivxOutputScript_total (parsed : ParsedPivxAddress) :
    ∃ s, pivxOutputScript parsed = .ok s := by
  obtain ⟨t, v, hsh⟩ := parsed
  cases t <;> simp [pivxOutputScript]

/-- C9: the defensive unknown-address-type branch of the script projection
is unreachable — every failure of pivxAddressToOutputScript is one of the
decode-stage conditions, never the unknown-address-type condition. -/
theorem output_script_no_default (bs : Bs58) (address : String)
    (network : PivxNetwork) (e : PivxError)
    (h : pivxAddressToOutputScript bs address network = .error e) :
    (∃ m, e = .base58Error m) ∨ e = .payloadTooShort ∨
    (∃ b, e = .unknownVersionByte b) ∨
    (∃ a, e = .invalidHashLength 20 a) := by
  simp only [pivxAddressToOutputScript] at h
  cases hp : parsePivxBase58Address bs address network with
  | error e2 =>
    simp only [hp] at h
    injection h with h
    subst h
    exact parse_error_cases bs address network e2 hp
  | ok parsed =>
    simp only [hp] at h
    obtain ⟨s, hs⟩ := pivxOutputScript_total parsed
    rw [hs] at h
    exact absurd h (by simp)

/-- Witness for C9 at a decoder that rejects every string, so the
projection fails with the propagated Base58Check condition. -/
theorem output_script_no_default_witness :
    (∃ m, PivxError.base58Error "checksum" = PivxError.base58Error m) ∨
    PivxError.base58Error "checksum" = PivxError.payloadTooShort ∨
    (∃ b, PivxError.base58Error "checksum" =
      PivxError.unknownVersionByte b) ∨
    (∃ a, PivxError.base58Error "checksum" =
      PivxError.invalidHashLength 20 a) :=
  output_script_no_default ⟨fun _ => "", fun _ => .error "checksum"⟩
    "a" pivx (PivxError.base58Error "checksum") (by rfl)

/-- C1: for every 20-byte hash and each of the four address classes,
encoding with the class's registered prefix and then parsing yields back
exactly that class, a structurally equal prefix, and the identical hash —
assuming the external Base58Check primitive decodes its own encoding of
the assembled payload back to that payload. -/
theorem encode_decode_roundtrip (bs : Bs58) (H : List Nat)
    (c : PivxAddressType) (hH : H.length = 20)
    (hbs : bs.decode (bs.encode (versionBytes (prefixOfClass c) ++ H)) =
      .ok (versionBytes (prefixOfClass c) ++ H)) :
    (encodePivxAddress bs H (prefixOfClass c)).bind
      (fun s => parsePivxBase58Address bs s pivx) =
    .ok ⟨c, prefixOfClass c, H⟩ := by
  cases c <;>
    simp only [prefixOfClass, pivx, versionBytes, List.singleton_append,
      List.cons_append, List.nil_append] at hbs ⊢ <;>
    simp [encodePivxAddress, parsePivxBase58Address, extractVersion,
      singleByteMatches, versionEquals, hH, hbs, Except.bind, pivx]

/-- Witness for C1 at the concrete 20-byte hash of 0x12 bytes, for the
pubKeyHash class and for the 3-byte exchange class, each with a decoder
that inverts the encoder on the assembled payload. -/
theorem encode_decode_roundtrip_witness :
    (encodePivxAddress
        ⟨fun _ => "addr", fun _ => .ok (0x1e :: List.replicate 20 0x12)⟩
        (List.replicate 20 0x12) (prefixOfClass .p2pkh)).bind
      (fun s => parsePivxBase58Address
        ⟨fun _ => "addr", fun _ => .ok (0x1e :: List.replicate 20 0x12)⟩
        s pivx) =
      .ok ⟨.p2pkh, prefixOfClass .p2pkh, List.replicate 20 0x12⟩ ∧
    (encodePivxAddress
        ⟨fun _ => "addr",
         fun _ => .ok ([0x01, 0xb9, 0xa2] ++ List.replicate 20 0x12)⟩
        (List.replicate 20 0x12) (prefixOfClass .exchange)).bind
      (fun s => parsePivxBase58Address
        ⟨fun _ => "addr",
         fun _ => .ok ([0x01, 0xb9, 0xa2] ++ List.replicate 20 0x12)⟩
        s pivx) =
      .ok ⟨.exchange, prefixOfClass .exchange, List.replicate 20 0x12⟩ :=
  ⟨encode_decode_roundtrip
      ⟨fun _ => "addr", fun _ => .ok (0x1e :: List.replicate 20 0x12)⟩
      (List.replicate 20 0x12) .p2pkh (by decide) (by rfl),
   encode_decode_roundtrip
      ⟨fun _ => "addr",
       fun _ => .ok ([0x01, 0xb9, 0xa2] ++ List.replicate 20 0x12)⟩
      (List.replicate 20 0x12) .exchange (by decide) (by rfl)⟩
